import Mathlib

/-
Shallow embedding of the na62-farm-lib core given in
src/l0/MEP.h and src/monitoring/BurstIdHandler.h.

Machine integers are modelled as Nat; where overflow matters (the
32-bit atomic counter) arithmetic is taken explicitly modulo 2^32
(written as the literal 4294967296).
-/

/-- One byte of a received frame buffer. `buf.getD i 0` models reading
`data[i]` as a `uint8_t`; the `% 256` keeps the model total on arbitrary
`List Nat` values (a real buffer only holds values below 256). -/
def byteAt (buf : List Nat) (i : Nat) : Nat := buf.getD i 0 % 256

/-- The L0 MEP header (struct MEP_HDR, src/l0/MEP.h):
`uint32_t firstEventNum : 24; uint8_t sourceID; uint16_t mepLength;
uint8_t eventCount; uint8_t sourceSubID;` with
`__attribute__((__packed__))`. -/
structure MEP_HDR where
  firstEventNum : Nat
  sourceID : Nat
  mepLength : Nat
  eventCount : Nat
  sourceSubID : Nat
deriving DecidableEq

/-- Byte size of the packed MEP_HDR: the 24-bit field plus `sourceID`
fill 4 bytes, then 2 + 1 + 1 bytes follow, so 8 bytes in total. -/
def MEP_HDR_SIZE : Nat := 8

/-- Reading the packed MEP_HDR overlaying `buf` at offset 0, in the
little-endian layout this struct has on the target platform: bytes 0-2
hold the 24-bit `firstEventNum` (least significant byte first), byte 3
`sourceID`, bytes 4-5 `mepLength` (little endian), byte 6 `eventCount`,
byte 7 `sourceSubID`. -/
def parseMEP_HDR (buf : List Nat) : MEP_HDR where
  firstEventNum := byteAt buf 0 + 256 * byteAt buf 1 + 65536 * byteAt buf 2
  sourceID := byteAt buf 3
  mepLength := byteAt buf 4 + 256 * byteAt buf 5
  eventCount := byteAt buf 6
  sourceSubID := byteAt buf 7

/-- The two exception classes a MEP can raise:
BrokenPacketReceivedError (the spec's MalformedFrame) and
UnknownSourceIDFound (the spec's UnknownSource). -/
inductive MEPError where
  | MalformedFrame
  | UnknownSource
deriving DecidableEq

/-- The MEP object (class MEP, src/l0/MEP.h). The C++ object keeps
`const MEP_HDR* const rawData_`: a pointer to the header lying inside
the receiver-owned frame buffer, not a copy of the header. The model
therefore carries the bytes that the stored `etherFrame_`/`rawData_`
pointers currently alias, and every header accessor below re-reads those
bytes at call time, exactly as `rawData_->field` does. `eventCount_`
holds the bit pattern of the 32-bit two's-complement cell behind
`std::atomic<int> eventCount_` (a Nat below 2^32). -/
structure MEP where
  etherFrame : List Nat
  eventCount_ : Nat
deriving DecidableEq

/-- `MEP::getSourceID`: `return rawData_->sourceID;` — reads the byte
through the stored pointer, i.e. from the current buffer contents. -/
def MEP.getSourceID (m : MEP) : Nat := (parseMEP_HDR m.etherFrame).sourceID

/-- `MEP::getFirstEventNum`: `return rawData_->firstEventNum;`. -/
def MEP.getFirstEventNum (m : MEP) : Nat := (parseMEP_HDR m.etherFrame).firstEventNum

/-- `MEP::getNumberOfFragments`: `return rawData_->eventCount;`. -/
def MEP.getNumberOfFragments (m : MEP) : Nat := (parseMEP_HDR m.etherFrame).eventCount

/-- `MEP::getLength`: `return rawData_->mepLength;`. -/
def MEP.getLength (m : MEP) : Nat := (parseMEP_HDR m.etherFrame).mepLength

/-- `MEP::getSourceSubID`: `return rawData_->sourceSubID;`. -/
def MEP.getSourceSubID (m : MEP) : Nat := (parseMEP_HDR m.etherFrame).sourceSubID

/-- `MEP::getSourceIDNum`: `return SourceIDManager::sourceIDToNum(rawData_->sourceID);`.
The SourceIDManager collaborator is outside src/; per the spec it is a
registry `denseIndex(sourceIdByte) -> index` that fails for unmapped
bytes, modelled as a `Nat → Option Nat` parameter. -/
def MEP.getSourceIDNum (registry : Nat → Option Nat) (m : MEP) : Option Nat :=
  registry m.getSourceID

/-- Modelled from the spec: the body of the MEP constructor lives in
MEP.cpp, which is not under src/ (src/l0/MEP.h only declares
`MEP(const char*, const uint_fast16_t&, const char*) throw (BrokenPacketReceivedError, UnknownSourceIDFound)`).
Following spec section 4.1 it (1) fails with MalformedFrame if the byte
length is smaller than the fixed header size, (2) fails with
MalformedFrame if the header's declared `mepLength` disagrees with the
received length, (3) fails with UnknownSource if the header's `sourceID`
is not mapped by the source-ID registry, and (4) on success records the
frame and initializes the completion counter to the header's
`eventCount`. `buf.length` plays the role of the received `dataLength`. -/
def MEP.construct (registry : Nat → Option Nat) (buf : List Nat) : Except MEPError MEP :=
  if buf.length < MEP_HDR_SIZE then Except.error MEPError.MalformedFrame
  else if (parseMEP_HDR buf).mepLength ≠ buf.length then Except.error MEPError.MalformedFrame
  else if (registry (parseMEP_HDR buf).sourceID).isNone then Except.error MEPError.UnknownSource
  else Except.ok { etherFrame := buf, eventCount_ := (parseMEP_HDR buf).eventCount }

/-- Modelled from the spec: the fragment walk of
`MEP::initializeMEPFragments` lives in MEP.cpp, not under src/, and the
per-fragment record format belongs to the MEPFragment collaborator (out
of scope in the spec). The walk needs only each record's total length,
modelled as a 16-bit little-endian field at the record's start (covering
the whole record, length field included). `sliceFragments buf offset n`
slices `n` records starting at `offset`: it fails with MalformedFrame if
the payload is exhausted before `n` records are sliced, if a record's
declared length would run past the end of the buffer, or — the
consistency validation spec section 3 requires during slicing — if the
records do not cover the buffer exactly. Each produced view is the pair
(offset, length) of a byte range in the shared buffer. -/
def sliceFragments (buf : List Nat) : Nat → Nat → Except MEPError (List (Nat × Nat))
  | offset, 0 =>
    if offset = buf.length then Except.ok [] else Except.error MEPError.MalformedFrame
  | offset, n + 1 =>
    if buf.length < offset + 2 then Except.error MEPError.MalformedFrame
    else
      let len := byteAt buf offset + 256 * byteAt buf (offset + 1)
      if buf.length < offset + len then Except.error MEPError.MalformedFrame
      else
        match sliceFragments buf (offset + len) n with
        | Except.ok rest => Except.ok ((offset, len) :: rest)
        | Except.error e => Except.error e

/-- Modelled from the spec: `MEP::initializeMEPFragments` walks the
payload after the fixed header, producing exactly
`rawData_->eventCount` fragment views. -/
def MEP.initializeMEPFragments (m : MEP) : Except MEPError (List (Nat × Nat)) :=
  sliceFragments m.etherFrame MEP_HDR_SIZE m.getNumberOfFragments

/-- `MEP::deleteEvent`: `return --eventCount_ == 0;` on
`std::atomic<int> eventCount_`. The atomic pre-decrement is
`fetch_sub(1)` then minus one, defined to wrap modulo 2^32 on the 32-bit
cell; the comparison with 0 holds exactly when the resulting bit pattern
is zero. The pair returned is (the MEP with the decremented counter, the
Bool the call returns). -/
def MEP.deleteEvent (m : MEP) : MEP × Bool :=
  let c := (m.eventCount_ + 4294967295) % 4294967296
  ({ m with eventCount_ := c }, c == 0)

/-- The state after `k` successive `deleteEvent` calls. -/
def MEP.deleteEvents (m : MEP) : Nat → MEP
  | 0 => m
  | k + 1 => ((m.deleteEvents k).deleteEvent).1

/-- The registry of the spec's worked example, mapping source ID 5 to
dense index 2 and nothing else. -/
def exampleRegistry : Nat → Option Nat := fun n => if n = 5 then some 2 else none

/-- A 64-byte frame carrying the example header
{firstEventNum = 1000, sourceID = 5, mepLength = 64, eventCount = 2,
sourceSubID = 0} (1000 = 232 + 256 * 3), followed by a 20-byte fragment
record, a 28-byte fragment record and 8 remaining bytes: the packed
header occupies 8 bytes, so records of 20 and 28 bytes end at offset
8 + 20 + 28 = 56, short of the declared 64. -/
def buf64 : List Nat :=
  [232, 3, 0, 5, 64, 0, 2, 0]
    ++ ([20, 0] ++ List.replicate 18 0)
    ++ ([28, 0] ++ List.replicate 26 0)
    ++ List.replicate 8 0

/-- A 56-byte frame with the example header corrected to
mepLength = 56: the 8-byte packed header followed by fragment records of
20 and 28 bytes covers it exactly (8 + 20 + 28 = 56). -/
def buf56 : List Nat :=
  [232, 3, 0, 5, 56, 0, 2, 0]
    ++ ([20, 0] ++ List.replicate 18 0)
    ++ ([28, 0] ++ List.replicate 26 0)

/-- The static state of class BurstIdHandler
(src/monitoring/BurstIdHandler.h): `uint nextBurstId_`,
`uint currentBurstID_`, `uint lastFinishedBurst_`, and the boost
`cpu_timer EOBReceivedTimer_`, modelled by the nanoseconds its
`elapsed().wall` currently reports (`start()` resets it to 0). The
`std::mutex burstFinishedMutex_` only alters interleavings of concurrent
callers; in this sequential embedding `try_lock` always succeeds. -/
structure BurstIdHandler where
  currentBurstID_ : Nat
  nextBurstId_ : Nat
  lastFinishedBurst_ : Nat
  eobElapsedNs_ : Nat
deriving DecidableEq

/-- `BurstIdHandler::setNextBurstID`: assigns `nextBurstId_ = nextBurstID`
(a `uint_fast32_t` stored into the 32-bit `uint`, hence reduced modulo
2^32) and restarts the timer (`EOBReceivedTimer_.start()`, so the
elapsed wall time becomes 0). The LOG_INFO line is pure logging. -/
def BurstIdHandler.setNextBurstID (s : BurstIdHandler) (nextBurstID : Nat) : BurstIdHandler :=
  { s with nextBurstId_ := nextBurstID % 4294967296, eobElapsedNs_ := 0 }

/-- `BurstIdHandler::isInBurst`: `return nextBurstId_ == currentBurstID_;`. -/
def BurstIdHandler.isInBurst (s : BurstIdHandler) : Bool :=
  s.nextBurstId_ == s.currentBurstID_

/-- `BurstIdHandler::checkBurstIdChange`: promotes `nextBurstId_` to
`currentBurstID_` when they differ and
`EOBReceivedTimer_.elapsed().wall / 1E6 > 1000`. For a nonnegative
integer `wall` of nanoseconds (below 2^53, so exact as a double, and
IEEE division by 1E6 is correctly rounded with the boundary quotient
1000.0 exactly representable) that comparison holds exactly when
`wall > 10^9`, i.e. when strictly more than one second has elapsed. -/
def BurstIdHandler.checkBurstIdChange (s : BurstIdHandler) : BurstIdHandler :=
  if s.nextBurstId_ ≠ s.currentBurstID_ ∧ 1000000000 < s.eobElapsedNs_ then
    { s with currentBurstID_ := s.nextBurstId_ }
  else s

/-- `BurstIdHandler::checkBurstFinished`: when not in burst and
`lastFinishedBurst_ != currentBurstID_`, it takes the mutex, sleeps,
calls `onBurstFinished()` and records `lastFinishedBurst_ =
currentBurstID_`. The returned Bool marks whether this call invoked the
`onBurstFinished` notification (an external callback). The `sleep(2)`
is pure timing and `try_lock` always succeeds sequentially. -/
def BurstIdHandler.checkBurstFinished (s : BurstIdHandler) : BurstIdHandler × Bool :=
  if s.isInBurst = false ∧ s.lastFinishedBurst_ ≠ s.currentBurstID_ then
    ({ s with lastFinishedBurst_ := s.currentBurstID_ }, true)
  else (s, false)

/-- How many of `n` successive `checkBurstFinished` calls starting from
`s` invoke the `onBurstFinished` notification. -/
def BurstIdHandler.firesIn (s : BurstIdHandler) : Nat → Nat
  | 0 => 0
  | n + 1 =>
    (if (s.checkBurstFinished).2 then 1 else 0) + ((s.checkBurstFinished).1.firesIn n)

/-! Helper lemmas. -/

lemma byteAt_lt (buf : List Nat) (i : Nat) : byteAt buf i < 256 :=
  Nat.mod_lt _ (by norm_num)

lemma deleteEvent_snd_eq_eventCount (m : MEP) :
    (m.deleteEvent).2 = ((m.deleteEvent).1.eventCount_ == 0) := rfl

lemma deleteEvents_eventCount (m : MEP) (k : Nat) (hk : k ≤ m.eventCount_)
    (hc : m.eventCount_ < 4294967296) :
    (m.deleteEvents k).eventCount_ = m.eventCount_ - k := by
  induction k with
  | zero => rfl
  | succ k ih =>
    have ih' := ih (by omega)
    show ((m.deleteEvents k).deleteEvent).1.eventCount_ = m.eventCount_ - (k + 1)
    simp only [MEP.deleteEvent]
    rw [ih']
    omega

lemma deleteEvents_from_zero (m : MEP) (h : m.eventCount_ = 0) (k : Nat)
    (hk : k ≤ 4294967296) :
    (m.deleteEvents k).eventCount_ = (4294967296 - k) % 4294967296 := by
  induction k with
  | zero => simp [MEP.deleteEvents, h]
  | succ k ih =>
    have ih' := ih (by omega)
    show ((m.deleteEvents k).deleteEvent).1.eventCount_ = (4294967296 - (k + 1)) % 4294967296
    simp only [MEP.deleteEvent]
    rw [ih']
    omega

/-- Claim C9: for every constructed MEP the header accessors are bounded
by the wire-format field widths: `getFirstEventNum` below 2^24 (24-bit
field), `getNumberOfFragments`, `getSourceSubID` and `getSourceID` at
most 255 (8-bit fields), and `getLength` at most 65535 (16-bit field). -/
theorem mep_accessor_bounds (m : MEP) :
    m.getFirstEventNum < 2 ^ 24 ∧ m.getNumberOfFragments ≤ 255 ∧
      m.getSourceSubID ≤ 255 ∧ m.getSourceID ≤ 255 ∧ m.getLength ≤ 65535 := by
  have h0 := byteAt_lt m.etherFrame 0
  have h1 := byteAt_lt m.etherFrame 1
  have h2 := byteAt_lt m.etherFrame 2
  have h3 := byteAt_lt m.etherFrame 3
  have h4 := byteAt_lt m.etherFrame 4
  have h5 := byteAt_lt m.etherFrame 5
  have h6 := byteAt_lt m.etherFrame 6
  have h7 := byteAt_lt m.etherFrame 7
  simp only [MEP.getFirstEventNum, MEP.getNumberOfFragments, MEP.getSourceSubID,
    MEP.getSourceID, MEP.getLength, parseMEP_HDR]
  refine ⟨by omega, by omega, by omega, by omega, by omega⟩

/-- Claim C4, counterexample: the MEP does not store the header by
value. `rawData_` is a pointer to the header inside the received buffer
(src/l0/MEP.h line 151), so when the aliased bytes change after
construction, `getSourceID` reports the new byte: the MEP constructed
from `buf56` (sourceID byte 5) reads 7 once the buffer's byte 3 holds 7. -/
theorem mep_header_not_copied_cex :
    MEP.getSourceID { etherFrame := buf56.set 3 7, eventCount_ := 2 } ≠
      MEP.getSourceID { etherFrame := buf56, eventCount_ := 2 } := by decide

/-- Claim C4, amended: the MEP stores `rawData_` as a const pointer to
the header inside the received buffer, not a copy; every header accessor
reads through that pointer, so its result reflects the buffer's current
contents: overwriting the sourceID byte (offset 3) with `v` after
construction makes `getSourceID` return `v`. -/
theorem mep_getSourceID_tracks_buffer (buf : List Nat) (v k : Nat)
    (hv : v < 256) (hl : 3 < buf.length) :
    MEP.getSourceID { etherFrame := buf.set 3 v, eventCount_ := k } = v := by
  simp only [MEP.getSourceID, parseMEP_HDR, byteAt]
  rw [List.getD_eq_getElem?_getD, List.getElem?_set_self (by omega)]
  simp [Nat.mod_eq_of_lt hv]

/-- Witness for `mep_getSourceID_tracks_buffer` at `buf56`, `v = 9`. -/
theorem mep_getSourceID_tracks_buffer_witness :
    MEP.getSourceID { etherFrame := buf56.set 3 9, eventCount_ := 11 } = 9 :=
  mep_getSourceID_tracks_buffer buf56 9 11 (by decide) (by decide)

/-- Claim C5: construction fails with MalformedFrame
(BrokenPacketReceivedError) whenever the received byte length is smaller
than the fixed header size or the declared `mepLength` differs from the
received length; fails with UnknownSource (UnknownSourceIDFound)
whenever the length checks pass but the header's `sourceID` is not
mapped by the registry, regardless of the other header contents; and on
success all checks passed, so neither error is raised. -/
theorem mep_construct_validation (registry : Nat → Option Nat) (buf : List Nat) :
    ((buf.length < MEP_HDR_SIZE ∨ (parseMEP_HDR buf).mepLength ≠ buf.length) →
      MEP.construct registry buf = Except.error MEPError.MalformedFrame)
    ∧ (MEP_HDR_SIZE ≤ buf.length → (parseMEP_HDR buf).mepLength = buf.length →
      registry (parseMEP_HDR buf).sourceID = none →
      MEP.construct registry buf = Except.error MEPError.UnknownSource)
    ∧ (∀ m : MEP, MEP.construct registry buf = Except.ok m →
      MEP_HDR_SIZE ≤ buf.length ∧ (parseMEP_HDR buf).mepLength = buf.length ∧
        (registry (parseMEP_HDR buf).sourceID).isSome = true) := by
  refine ⟨?_, ?_, ?_⟩
  · intro h
    unfold MEP.construct
    by_cases hA : buf.length < MEP_HDR_SIZE
    · rw [if_pos hA]
    · rw [if_neg hA, if_pos (h.resolve_left hA)]
  · intro hA hB hC
    unfold MEP.construct
    rw [if_neg (by omega), if_neg (by simp [hB]), if_pos (by simp [hC])]
  · intro m h
    unfold MEP.construct at h
    by_cases h1 : buf.length < MEP_HDR_SIZE
    · rw [if_pos h1] at h
      exact absurd h (by simp)
    · rw [if_neg h1] at h
      by_cases h2 : (parseMEP_HDR buf).mepLength ≠ buf.length
      · rw [if_pos h2] at h
        exact absurd h (by simp)
      · rw [if_neg h2] at h
        by_cases h3 : (registry (parseMEP_HDR buf).sourceID).isNone = true
        · rw [if_pos h3] at h
          exact absurd h (by simp)
        · rw [if_neg h3] at h
          refine ⟨by omega, by simpa using h2, ?_⟩
          simp only [Option.isNone_iff_eq_none] at h3
          simpa [Option.isSome_iff_ne_none] using h3

/-- Witness for `mep_construct_validation`: a 3-byte frame is rejected
as malformed, and `buf56` with an empty registry is rejected as coming
from an unknown source. -/
theorem mep_construct_validation_witness :
    MEP.construct exampleRegistry [1, 2, 3] = Except.error MEPError.MalformedFrame ∧
      MEP.construct (fun _ => none) buf56 = Except.error MEPError.UnknownSource :=
  ⟨(mep_construct_validation exampleRegistry [1, 2, 3]).1 (Or.inl (by decide)),
   (mep_construct_validation (fun _ => none) buf56).2.1 (by decide) (by decide) rfl⟩

/-- Claim C6, counterexample: with the packed header actually 8 bytes
(not the 16 the example states), the 64-byte frame whose payload holds
fragment records of 20 and 28 bytes constructs fine but
`initializeMEPFragments` fails: the records end at 8 + 20 + 28 = 56,
leaving 8 of the declared 64 bytes uncovered, a MalformedFrame. -/
theorem mep_example64_cex :
    MEP.construct exampleRegistry buf64 =
        Except.ok { etherFrame := buf64, eventCount_ := 2 } ∧
      MEP.initializeMEPFragments { etherFrame := buf64, eventCount_ := 2 } =
        Except.error MEPError.MalformedFrame :=
  ⟨rfl, rfl⟩

/-- Claim C6, amended: for the frame with header {firstEventNum = 1000,
sourceID = 5, mepLength = 56, eventCount = 2, sourceSubID = 0} (the
packed header is 8 bytes, so 8 + 20 + 28 = 56), registry mapping 5 to
dense index 2, and a 56-byte buffer whose payload after the header
decodes into fragment records of 20 and 28 bytes, construction and
`initializeMEPFragments` succeed, `getSourceIDNum` returns dense index
2, and exactly two fragment views are produced. -/
theorem mep_example56_ok :
    MEP.construct exampleRegistry buf56 =
        Except.ok { etherFrame := buf56, eventCount_ := 2 } ∧
      MEP.initializeMEPFragments { etherFrame := buf56, eventCount_ := 2 } =
        Except.ok [(8, 20), (28, 28)] ∧
      MEP.getSourceIDNum exampleRegistry { etherFrame := buf56, eventCount_ := 2 } =
        some 2 ∧
      [(8, 20), (28, 28)].length = 2 :=
  ⟨rfl, rfl, rfl, rfl⟩

/-- Claim C1: for every MEP whose completion counter holds the header's
eventCount N (1 ≤ N ≤ 255, the 8-bit field), the i-th of N successive
`deleteEvent` calls (1 ≤ i ≤ N) returns true exactly when i = N: the
first N - 1 calls return false and only the N-th observes the zero
transition. The N decrements of the one counter are identical, so the
order in which the fragments report is immaterial. -/
theorem deleteEvent_true_exactly_on_nth (m : MEP) (N i : Nat) (hN : m.eventCount_ = N)
    (hN1 : 1 ≤ N) (hN2 : N ≤ 255) (hi1 : 1 ≤ i) (hi2 : i ≤ N) :
    ((m.deleteEvents (i - 1)).deleteEvent).2 = decide (i = N) := by
  subst hN
  rw [deleteEvent_snd_eq_eventCount]
  show ((m.deleteEvents (i - 1 + 1)).eventCount_ == 0) = decide (i = m.eventCount_)
  rw [deleteEvents_eventCount m (i - 1 + 1) (by omega) (by omega)]
  rcases eq_or_ne i m.eventCount_ with he | he
  · subst he
    have hz : m.eventCount_ - (m.eventCount_ - 1 + 1) = 0 := by omega
    simp [hz]
  · have hne : m.eventCount_ - (i - 1 + 1) ≠ 0 := by omega
    simp [he, hne]

/-- Witness for `deleteEvent_true_exactly_on_nth` with N = 2: the first
call returns false, the second returns true. -/
theorem deleteEvent_true_exactly_on_nth_witness :
    (((MEP.mk [] 2).deleteEvents 1).deleteEvent).2 = true ∧
      (((MEP.mk [] 2).deleteEvents 0).deleteEvent).2 = false :=
  ⟨deleteEvent_true_exactly_on_nth ⟨[], 2⟩ 2 2 rfl (by decide) (by decide) (by decide)
      (by decide),
   deleteEvent_true_exactly_on_nth ⟨[], 2⟩ 2 1 rfl (by decide) (by decide) (by decide)
      (by decide)⟩

/-- Claim C8: the zero transition is irreversible within the
representable range. Once a `deleteEvent` call has returned true (the
32-bit counter reached bit pattern 0), the k-th subsequent call returns
false for every 1 ≤ k < 2^32: the counter wraps to negative values
(patterns 2^32 - k) and does not re-equal zero before 2^32 further
decrements. -/
theorem deleteEvent_no_second_true (m : MEP) (k : Nat)
    (h : (m.deleteEvent).2 = true) (hk1 : 1 ≤ k) (hk2 : k < 4294967296) :
    (((m.deleteEvent).1.deleteEvents (k - 1)).deleteEvent).2 = false := by
  have h0 : (m.deleteEvent).1.eventCount_ = 0 := by
    rw [deleteEvent_snd_eq_eventCount] at h
    simpa using h
  rw [deleteEvent_snd_eq_eventCount]
  show (((m.deleteEvent).1.deleteEvents (k - 1 + 1)).eventCount_ == 0) = false
  rw [deleteEvents_from_zero _ h0 _ (by omega)]
  simp only [beq_eq_false_iff_ne, ne_eq]
  omega

/-- Witness for `deleteEvent_no_second_true`: from a counter of 1 the
first call returns true, and the second subsequent call returns false. -/
theorem deleteEvent_no_second_true_witness :
    ((((MEP.mk [] 1).deleteEvent).1.deleteEvents 1).deleteEvent).2 = false :=
  deleteEvent_no_second_true ⟨[], 1⟩ 2 (by decide) (by decide) (by decide)

/-! Helper lemmas for the burst state machine. -/

lemma checkBurstFinished_of_done (s : BurstIdHandler)
    (h : s.lastFinishedBurst_ = s.currentBurstID_) : s.checkBurstFinished = (s, false) := by
  unfold BurstIdHandler.checkBurstFinished
  rw [if_neg]
  rintro ⟨_, h2⟩
  exact h2 h

lemma checkBurstFinished_not_fired (s : BurstIdHandler)
    (h : (s.checkBurstFinished).2 = false) : (s.checkBurstFinished).1 = s := by
  unfold BurstIdHandler.checkBurstFinished at h ⊢
  split_ifs at h ⊢
  rfl

lemma checkBurstFinished_fired_state (s : BurstIdHandler)
    (h : (s.checkBurstFinished).2 = true) :
    (s.checkBurstFinished).1.lastFinishedBurst_ = s.currentBurstID_ ∧
      (s.checkBurstFinished).1.currentBurstID_ = s.currentBurstID_ := by
  unfold BurstIdHandler.checkBurstFinished at h ⊢
  split_ifs at h ⊢
  exact ⟨rfl, rfl⟩

lemma firesIn_of_done (s : BurstIdHandler) (h : s.lastFinishedBurst_ = s.currentBurstID_)
    (n : Nat) : s.firesIn n = 0 := by
  induction n with
  | zero => rfl
  | succ n ih =>
    unfold BurstIdHandler.firesIn
    rw [checkBurstFinished_of_done s h]
    simpa using ih

lemma firesIn_le_one (s : BurstIdHandler) (n : Nat) : s.firesIn n ≤ 1 := by
  induction n generalizing s with
  | zero => simp [BurstIdHandler.firesIn]
  | succ n ih =>
    unfold BurstIdHandler.firesIn
    by_cases h : (s.checkBurstFinished).2 = true
    · rw [h]
      have h1 := (checkBurstFinished_fired_state s h).1
      have h2 := (checkBurstFinished_fired_state s h).2
      have hz : (s.checkBurstFinished).1.firesIn n = 0 :=
        firesIn_of_done _ (h1.trans h2.symm) n
      simp [hz]
    · have hf : (s.checkBurstFinished).2 = false := by
        cases hh : (s.checkBurstFinished).2
        · rfl
        · exact absurd hh h
      rw [hf, checkBurstFinished_not_fired s hf]
      simpa using ih s

/-- Claim C2: `checkBurstIdChange` never changes `currentBurstID_` when
`nextBurstId_` equals it or when the elapsed time since the last
`setNextBurstID` is at or below the 1-second debounce threshold (10^9
ns); when they differ and the elapsed time exceeds the threshold, it
sets `currentBurstID_` to `nextBurstId_`. -/
theorem checkBurstIdChange_debounce (s : BurstIdHandler) :
    ((s.nextBurstId_ = s.currentBurstID_ ∨ s.eobElapsedNs_ ≤ 1000000000) →
      (s.checkBurstIdChange).currentBurstID_ = s.currentBurstID_)
    ∧ (s.nextBurstId_ ≠ s.currentBurstID_ → 1000000000 < s.eobElapsedNs_ →
      (s.checkBurstIdChange).currentBurstID_ = s.nextBurstId_) := by
  constructor
  · intro h
    unfold BurstIdHandler.checkBurstIdChange
    rw [if_neg]
    rintro ⟨h1, h2⟩
    rcases h with h | h
    · exact h1 h
    · omega
  · intro h1 h2
    unfold BurstIdHandler.checkBurstIdChange
    rw [if_pos ⟨h1, h2⟩]

/-- Witness for `checkBurstIdChange_debounce`: no promotion at elapsed
10^9 ns even with differing ids, promotion at 2 * 10^9 ns. -/
theorem checkBurstIdChange_debounce_witness :
    ((BurstIdHandler.mk 3 4 0 1000000000).checkBurstIdChange).currentBurstID_ = 3 ∧
      ((BurstIdHandler.mk 1 2 0 2000000000).checkBurstIdChange).currentBurstID_ = 2 :=
  ⟨(checkBurstIdChange_debounce (BurstIdHandler.mk 3 4 0 1000000000)).1
      (Or.inr (by decide)),
   (checkBurstIdChange_debounce (BurstIdHandler.mk 1 2 0 2000000000)).2
      (by decide) (by decide)⟩

/-- Claim C7: for every id below 2^32 and every prior state,
`setNextBurstID id` sets `nextBurstId_` to id and restarts the
elapsed-time timer (elapsed becomes 0), leaving `currentBurstID_` and
`lastFinishedBurst_` unchanged. -/
theorem setNextBurstID_effect (s : BurstIdHandler) (id : Nat) (h : id < 4294967296) :
    (s.setNextBurstID id).nextBurstId_ = id ∧
      (s.setNextBurstID id).eobElapsedNs_ = 0 ∧
      (s.setNextBurstID id).currentBurstID_ = s.currentBurstID_ ∧
      (s.setNextBurstID id).lastFinishedBurst_ = s.lastFinishedBurst_ := by
  refine ⟨?_, rfl, rfl, rfl⟩
  simp [BurstIdHandler.setNextBurstID, Nat.mod_eq_of_lt h]

/-- Witness for `setNextBurstID_effect` at state (1, 2, 3, 4), id 42. -/
theorem setNextBurstID_effect_witness :
    ((BurstIdHandler.mk 1 2 3 4).setNextBurstID 42).nextBurstId_ = 42 ∧
      ((BurstIdHandler.mk 1 2 3 4).setNextBurstID 42).eobElapsedNs_ = 0 ∧
      ((BurstIdHandler.mk 1 2 3 4).setNextBurstID 42).currentBurstID_ = 1 ∧
      ((BurstIdHandler.mk 1 2 3 4).setNextBurstID 42).lastFinishedBurst_ = 3 :=
  setNextBurstID_effect (BurstIdHandler.mk 1 2 3 4) 42 (by decide)

/-- Claim C3: `checkBurstFinished` invokes `onBurstFinished` at most
once per distinct `currentBurstID_` value. It fires only when the state
is Draining (`nextBurstId_` differs from `currentBurstID_`) and
`lastFinishedBurst_` differs from `currentBurstID_`; after firing it
records `lastFinishedBurst_ = currentBurstID_`, so in any run of
successive `checkBurstFinished` calls (during which `currentBurstID_`
never changes) at most one call fires. -/
theorem checkBurstFinished_at_most_once (s : BurstIdHandler) (n : Nat) :
    ((s.checkBurstFinished).2 = true →
      s.nextBurstId_ ≠ s.currentBurstID_ ∧ s.lastFinishedBurst_ ≠ s.currentBurstID_)
    ∧ ((s.checkBurstFinished).2 = true →
      (s.checkBurstFinished).1.lastFinishedBurst_ = s.currentBurstID_)
    ∧ s.firesIn n ≤ 1 := by
  refine ⟨?_, ?_, firesIn_le_one s n⟩
  · intro h
    unfold BurstIdHandler.checkBurstFinished at h
    split_ifs at h with hc
    obtain ⟨h1, h2⟩ := hc
    refine ⟨?_, h2⟩
    simpa [BurstIdHandler.isInBurst] using h1
  · intro h
    exact (checkBurstFinished_fired_state s h).1

/-- Witness for `checkBurstFinished_at_most_once` at state (5, 6, 4, 0). -/
theorem checkBurstFinished_at_most_once_witness :
    ((BurstIdHandler.mk 5 6 4 0).nextBurstId_ ≠ (BurstIdHandler.mk 5 6 4 0).currentBurstID_ ∧
      (BurstIdHandler.mk 5 6 4 0).lastFinishedBurst_ ≠
        (BurstIdHandler.mk 5 6 4 0).currentBurstID_) ∧
      ((BurstIdHandler.mk 5 6 4 0).checkBurstFinished).1.lastFinishedBurst_ =
        (BurstIdHandler.mk 5 6 4 0).currentBurstID_ :=
  ⟨(checkBurstFinished_at_most_once (BurstIdHandler.mk 5 6 4 0) 3).1 (by decide),
   (checkBurstFinished_at_most_once (BurstIdHandler.mk 5 6 4 0) 3).2.1 (by decide)⟩

/-- Claim C10: `checkBurstFinished` never modifies `currentBurstID_`,
`nextBurstId_` or the elapsed-time timer; when it does not fire it
leaves the state unchanged, and when it fires its only state change is
`lastFinishedBurst_ = currentBurstID_` — in particular the state is
still Draining (not in burst) afterwards, promotion being left to
`checkBurstIdChange`. -/
theorem checkBurstFinished_frame (s : BurstIdHandler) :
    (s.checkBurstFinished).1.currentBurstID_ = s.currentBurstID_ ∧
      (s.checkBurstFinished).1.nextBurstId_ = s.nextBurstId_ ∧
      (s.checkBurstFinished).1.eobElapsedNs_ = s.eobElapsedNs_ ∧
      ((s.checkBurstFinished).2 = true →
        (s.checkBurstFinished).1.lastFinishedBurst_ = s.currentBurstID_) ∧
      ((s.checkBurstFinished).2 = false → (s.checkBurstFinished).1 = s) ∧
      ((s.checkBurstFinished).2 = true → (s.checkBurstFinished).1.isInBurst = false) := by
  by_cases hc : s.isInBurst = false ∧ s.lastFinishedBurst_ ≠ s.currentBurstID_
  · have he : s.checkBurstFinished =
        ({ s with lastFinishedBurst_ := s.currentBurstID_ }, true) := by
      unfold BurstIdHandler.checkBurstFinished
      rw [if_pos hc]
    rw [he]
    refine ⟨rfl, rfl, rfl, fun _ => rfl, ?_, ?_⟩
    · intro h
      simp at h
    · intro _
      simpa [BurstIdHandler.isInBurst] using hc.1
  · have he : s.checkBurstFinished = (s, false) := by
      unfold BurstIdHandler.checkBurstFinished
      rw [if_neg hc]
    rw [he]
    refine ⟨rfl, rfl, rfl, ?_, fun _ => rfl, ?_⟩
    · intro h
      simp at h
    · intro h
      simp at h

/-- Witness for `checkBurstFinished_frame` at state (7, 9, 1, 11). -/
theorem checkBurstFinished_frame_witness :
    ((BurstIdHandler.mk 7 9 1 11).checkBurstFinished).1.lastFinishedBurst_ =
        (BurstIdHandler.mk 7 9 1 11).currentBurstID_ ∧
      ((BurstIdHandler.mk 7 9 1 11).checkBurstFinished).1.isInBurst = false :=
  ⟨(checkBurstFinished_frame (BurstIdHandler.mk 7 9 1 11)).2.2.2.1 (by decide),
   (checkBurstFinished_frame (BurstIdHandler.mk 7 9 1 11)).2.2.2.2.2 (by decide)⟩
